import Mathlib

/-!
Verification of the ananke causal-graph core (src/ananke) against its
specification.  The Python classes `Graph`, `SG`, `ADMG`, `IG` and
`OneLineID` are shallowly embedded: a graph is a record of vertex names,
fixed flags, the three edge sets and the district/block caches; methods
become functions returning `Except PyErr _`, with Python exceptions
modelled as error values.

Modelling conventions, justified against the source:

* Vertex names are Python strings used only as opaque dictionary keys; the
  embedding replaces them by natural numbers.

* `Vertex.parents/children/siblings/neighbors` are relational indices
  (vertex.py).  Every mutation reachable from the operations embedded here
  keeps them in sync with the `di_edges`/`bi_edges`/`ud_edges` sets:
  `Graph.add_diedge/delete_diedge/add_biedge/delete_biedge/add_udedge/
  delete_udedge` update both, and `SG.delete_biedge` (sg.py line 263)
  delegates to `Graph.add_biedge`, which also keeps them in sync (the pair
  it inserts joins vertices that are already siblings).  The embedding
  therefore stores only the edge sets and derives the four relations.

* `_district_map` and `_districts` (sg.py): both are rebuilt together by
  `_calculate_districts`; the only reachable deviation is `ADMG.fix`
  (admg.py line 144), which runs `_calculate_districts` — rebuilding the
  map — and then overwrites `self._districts` with the call's `None`
  return value.  The embedding stores the map as its list of groups
  (`mapD`) plus a flag `validD` recording whether `_districts` is that
  list (`true`) or `None` (`false`).  `_block_map`/`_blocks` are stored
  the same way as `mapB` (no reachable operation sets `_blocks` to None).

* Python `set`/`dict` iteration order is implementation defined; the
  embedding iterates sets in ascending numeric order (`enumAsc`).
  Every theorem below that depends on an iteration of a set is evaluated
  at an input whose outcome is the same for every iteration order
  (singleton or fully symmetric sets).

* Loops whose termination is not structural get explicit fuel, generous
  enough for every terminating run; exhaustion yields the distinguished
  value `PyErr.diverge`, marking a run on which the Python loop would not
  terminate.  No theorem below depends on fuel exhaustion.
-/

/-- Python exceptions (and non-termination) observable in the embedded
fragment.  `keyError` = dict lookup failure, `typeError` = e.g. indexing
`None` or iterating a method object, `assertionError` = failed `assert`,
`attributeError` = attribute lookup on the wrong type, `notIdentified` =
`NotIdentifiedError` from one_line.py, `diverge` = the marker for a
non-terminating loop. -/
inductive PyErr where
  | keyError
  | typeError
  | assertionError
  | attributeError
  | notIdentified
  | diverge
deriving DecidableEq

instance {ε α : Type} [DecidableEq ε] [DecidableEq α] : DecidableEq (Except ε α) :=
  fun a b =>
    match a, b with
    | Except.error x, Except.error y =>
        if h : x = y then isTrue (congrArg Except.error h)
        else isFalse (fun hc => h (Except.error.inj hc))
    | Except.ok x, Except.ok y =>
        if h : x = y then isTrue (congrArg Except.ok h)
        else isFalse (fun hc => h (Except.ok.inj hc))
    | Except.error _, Except.ok _ => isFalse (fun hc => Except.noConfusion hc)
    | Except.ok _, Except.error _ => isFalse (fun hc => Except.noConfusion hc)

/-- State of a Python `Graph`/`SG`/`ADMG` object (graph.py, sg.py,
admg.py).  `verts` = keys of `self.vertices`; `fixeds` = vertices whose
`fixed` flag is True; `di`/`bi`/`ud` = the edge sets of ordered pairs;
`mapD` = the groups of `_district_map` from the most recent
`_calculate_districts`; `validD` = whether `_districts` currently holds
that list (`false` means it is `None`); `mapB` = the groups of
`_block_map`. -/
structure PyGraph where
  verts : Finset ℕ
  fixeds : Finset ℕ
  di : Finset (ℕ × ℕ)
  bi : Finset (ℕ × ℕ)
  ud : Finset (ℕ × ℕ)
  mapD : List (Finset ℕ)
  validD : Bool
  mapB : List (Finset ℕ)
deriving DecidableEq

/-- Embeds `copy.deepcopy` of a graph object: the embedding is by value, so the
independent copy is the value itself. -/
def deepcopy (g : PyGraph) : PyGraph := g

/-- Embeds `Vertex.parents` of `v`, derived from the directed edge set. -/
def pars (g : PyGraph) (v : ℕ) : Finset ℕ :=
  (g.di.filter (fun e => e.2 = v)).image (fun e => e.1)

/-- Embeds `Vertex.children` of `v`, derived from the directed edge set. -/
def childs (g : PyGraph) (v : ℕ) : Finset ℕ :=
  (g.di.filter (fun e => e.1 = v)).image (fun e => e.2)

/-- Embeds `Vertex.siblings` of `v`, derived from the bidirected edge set (both
orientations, matching `Graph.add_biedge`, which adds both references). -/
def sibs (g : PyGraph) (v : ℕ) : Finset ℕ :=
  (g.bi.filter (fun e => e.2 = v)).image (fun e => e.1) ∪
    (g.bi.filter (fun e => e.1 = v)).image (fun e => e.2)

/-- Embeds `Vertex.neighbors` of `v`, derived from the undirected edge set. -/
def nebs (g : PyGraph) (v : ℕ) : Finset ℕ :=
  (g.ud.filter (fun e => e.2 = v)).image (fun e => e.1) ∪
    (g.ud.filter (fun e => e.1 = v)).image (fun e => e.2)

/-- Embeds `Graph.has_biedge` (graph.py lines 112-123): membership of either
orientation of the pair in `bi_edges`. -/
def hasBiedgeB (g : PyGraph) (a b : ℕ) : Bool :=
  decide ((a, b) ∈ g.bi) || decide ((b, a) ∈ g.bi)

/-- Canonical ascending enumeration of a finite set of naturals, used
wherever the source iterates over a Python `set` or `dict` (whose
iteration order is implementation defined; see the header note). -/
def enumAsc (s : Finset ℕ) : List ℕ :=
  (List.range (s.sup id + 1)).filter (fun v => decide (v ∈ s))

/-- Worklist loop shared by `Graph.ancestors` and `Graph.descendants`
(graph.py lines 212-248).  The source filter `p not in ancestors`
compares a `Vertex` object against a set of name strings and therefore
never filters, so every adjacent vertex is re-pushed unconditionally; on a
graph with a reachable directed cycle the Python loop never terminates,
which the embedding reports as `diverge` when the fuel runs out.  The
final set is the set of popped vertices, independent of pop order. -/
def genLoop {α : Type} [DecidableEq α] (adj : α → List α) :
    ℕ → List α → Finset α → Except PyErr (Finset α)
  | 0, _, _ => Except.error PyErr.diverge
  | _ + 1, [], acc => Except.ok acc
  | fuel + 1, v :: stk, acc => genLoop adj fuel (adj v ++ stk) (insert v acc)

/-- Fuel dominating the pop count of any terminating run of the
ancestor/descendant worklists (a run pops at most one entry per directed
walk, and an acyclic graph on `n` vertices has fewer than `(n+2)^(n+2)`
walks). -/
def gfuel (g : PyGraph) : ℕ := (g.verts.card + 2) ^ (g.verts.card + 2)

/-- Embeds `Graph.descendants` (graph.py lines 231-248).  Building the initial
stack looks every name up in `self.vertices`, so an unknown name raises
KeyError. -/
def descendantsF (g : PyGraph) (vs : List ℕ) : Except PyErr (Finset ℕ) :=
  if vs.all (fun v => decide (v ∈ g.verts)) then
    genLoop (fun v => enumAsc (childs g v)) (gfuel g) vs ∅
  else Except.error PyErr.keyError

/-- Embeds `Graph.ancestors` (graph.py lines 212-229), the parent-closure twin of
`descendantsF`. -/
def ancestorsF (g : PyGraph) (vs : List ℕ) : Except PyErr (Finset ℕ) :=
  if vs.all (fun v => decide (v ∈ g.verts)) then
    genLoop (fun v => enumAsc (pars g v)) (gfuel g) vs ∅
  else Except.error PyErr.keyError

/-- Embeds `SG._dfs_district` (sg.py lines 120-134): depth-first closure over the
sibling relation, marking vertices in the shared `_district_map`
(`assigned`); fixed vertices are not filtered out.  Returns the updated
assigned set. -/
def dfsDistrict (bi : Finset (ℕ × ℕ)) : ℕ → List ℕ → Finset ℕ → Finset ℕ
  | 0, _, assigned => assigned
  | _ + 1, [], assigned => assigned
  | fuel + 1, v :: stk, assigned =>
      let marked := insert v assigned
      let sibv := ((bi.filter (fun e => e.2 = v)).image (fun e => e.1) ∪
        (bi.filter (fun e => e.1 = v)).image (fun e => e.2))
      let push := enumAsc (sibv.filter (fun s => s ∉ marked))
      dfsDistrict bi fuel (push ++ stk) marked

/-- Embeds `SG._calculate_districts` (sg.py lines 99-118): scan the vertices in
order, start a district at every unassigned non-fixed vertex, and collect
the groups of `_district_map`.  The DFS fuel dominates the pop count of
any run of `_dfs_district`. -/
def calcDistrictsAux (bi : Finset (ℕ × ℕ)) (fixeds : Finset ℕ) (fuel : ℕ) :
    List ℕ → Finset ℕ → List (Finset ℕ) → List (Finset ℕ)
  | [], _, groups => groups
  | v :: rest, assigned, groups =>
      if v ∈ assigned ∨ v ∈ fixeds then
        calcDistrictsAux bi fixeds fuel rest assigned groups
      else
        let marked := dfsDistrict bi fuel [v] assigned
        calcDistrictsAux bi fixeds fuel rest marked (groups ++ [marked \ assigned])

def calcDistricts (verts : Finset ℕ) (fixeds : Finset ℕ) (bi : Finset (ℕ × ℕ)) :
    List (Finset ℕ) :=
  calcDistrictsAux bi fixeds ((verts.card + 2) * (bi.card + 2) * (verts.card + 2))
    (enumAsc verts) ∅ []

/-- Embeds `SG._dfs_block`/`SG._calculate_blocks` (sg.py lines 170-205), the
neighbor twin of the district computation. -/
def calcBlocks (verts : Finset ℕ) (fixeds : Finset ℕ) (ud : Finset (ℕ × ℕ)) :
    List (Finset ℕ) :=
  calcDistrictsAux ud fixeds ((verts.card + 2) * (ud.card + 2) * (verts.card + 2))
    (enumAsc verts) ∅ []

/-- Embeds `SG.district` by name (sg.py lines 146-155):
`self._districts[self._district_map[self.vertices[vertex]]]`.  Evaluation
order of the source expression: the `self.vertices[vertex]` lookup
(KeyError on an unknown name), then the `_district_map` lookup (KeyError
when the vertex was never assigned), then the subscript of `_districts` —
a TypeError when `_districts` is `None`, which is the state `ADMG.fix`
leaves behind. -/
def districtF (g : PyGraph) (v : ℕ) : Except PyErr (Finset ℕ) :=
  if v ∈ g.verts then
    match g.mapD.find? (fun grp => decide (v ∈ grp)) with
    | none => Except.error PyErr.keyError
    | some grp => if g.validD then Except.ok grp else Except.error PyErr.typeError
  else Except.error PyErr.keyError

/-- One vertex of `ADMG.fix` (admg.py lines 129-141): set the fixed flag
(KeyError on an unknown name), delete every incoming directed edge, then
"delete" every bidirected edge at `v` through `SG.delete_biedge` — which
(sg.py line 263) calls `Graph.add_biedge(s, v)` instead, leaving the
sibling structure intact and inserting the orientation `(s, v)` into
`bi_edges`. -/
def admgFixOne (g : PyGraph) (v : ℕ) : Except PyErr PyGraph :=
  if v ∈ g.verts then
    let g1 : PyGraph := { g with fixeds := insert v g.fixeds }
    let g2 : PyGraph := { g1 with di := g1.di.filter (fun e => ¬ e.2 = v) }
    Except.ok { g2 with bi := g2.bi ∪ (sibs g v).image (fun s => (s, v)) }
  else Except.error PyErr.keyError

def admgFixList (g : PyGraph) : List ℕ → Except PyErr PyGraph
  | [] => Except.ok g
  | v :: rest =>
      match admgFixOne g v with
      | Except.error e => Except.error e
      | Except.ok g' => admgFixList g' rest

/-- Embeds `ADMG.fix` (admg.py lines 117-144).  After the per-vertex loop the
source runs `self._districts = self._calculate_districts()`: the call
rebuilds `_district_map` (and `_districts`) from the current state, but
its return value is `None`, so the assignment leaves `_districts = None`
(`validD := false`).  Blocks are not touched. -/
def admgFix (g : PyGraph) (vs : List ℕ) : Except PyErr PyGraph :=
  match admgFixList g vs with
  | Except.error e => Except.error e
  | Except.ok g' =>
      Except.ok { g' with mapD := calcDistricts g'.verts g'.fixeds g'.bi, validD := false }

/-- One vertex of `SG.fix` (sg.py lines 303-321): like `admgFixOne`, then
the undirected loop `for n in neighbors: if n.fixed: ...` — but
`neighbors` is a list of name strings, so `n.fixed` raises AttributeError
as soon as the vertex has any neighbor. -/
def sgFixOne (g : PyGraph) (v : ℕ) : Except PyErr PyGraph :=
  match admgFixOne g v with
  | Except.error e => Except.error e
  | Except.ok g' =>
      if (nebs g v) = ∅ then Except.ok g' else Except.error PyErr.attributeError

def sgFixList (g : PyGraph) : List ℕ → Except PyErr PyGraph
  | [] => Except.ok g
  | v :: rest =>
      match sgFixOne g v with
      | Except.error e => Except.error e
      | Except.ok g' => sgFixList g' rest

/-- Embeds `SG.fix` (sg.py lines 292-325): after the batch it calls
`self._calculate_districts()` and `self._calculate_blocks()` as plain
statements, so both caches really are recomputed here. -/
def sgFix (g : PyGraph) (vs : List ℕ) : Except PyErr PyGraph :=
  match sgFixList g vs with
  | Except.error e => Except.error e
  | Except.ok g' =>
      Except.ok { g' with
        mapD := calcDistricts g'.verts g'.fixeds g'.bi, validD := true,
        mapB := calcBlocks g'.verts g'.fixeds g'.ud }

/-- The scan `for v in remaining_vertices:` inside `ADMG.fixable` and
`ADMG.reachable_closure` (admg.py lines 168-176 and 205-214): find the
first vertex of the pass satisfying
`len(G.descendants([v]) & G.district(v)) == 1`; exceptions raised by the
check propagate. -/
def findFixable (G : PyGraph) : List ℕ → Except PyErr (Option ℕ)
  | [] => Except.ok none
  | v :: rest =>
      match descendantsF G [v] with
      | Except.error e => Except.error e
      | Except.ok d =>
          match districtF G v with
          | Except.error e => Except.error e
          | Except.ok dist =>
              if (d ∩ dist).card = 1 then Except.ok (some v)
              else findFixable G rest

/-- The `while remaining_vertices and fixed` loop of `ADMG.fixable`
(admg.py lines 201-219): when a pass finds no fixable vertex return
`(False, order)`, otherwise fix it on the working copy and continue; an
empty remainder means success.  The fuel `|remaining|+1` is exact: each
recursive call removes one vertex. -/
def fixableLoop : ℕ → PyGraph → Finset ℕ → List ℕ → Except PyErr (Bool × List ℕ)
  | 0, _, _, _ => Except.error PyErr.diverge
  | fuel + 1, G, remaining, order =>
      if remaining = ∅ then Except.ok (true, order)
      else
        match findFixable G (enumAsc remaining) with
        | Except.error e => Except.error e
        | Except.ok none => Except.ok (false, order)
        | Except.ok (some v) =>
            match admgFix G [v] with
            | Except.error e => Except.error e
            | Except.ok G' => fixableLoop fuel G' (remaining.erase v) (order ++ [v])

/-- Embeds `ADMG.fixable` (admg.py lines 184-223): work on a deep copy of self. -/
def fixable (g : PyGraph) (vertices : Finset ℕ) : Except PyErr (Bool × List ℕ) :=
  fixableLoop (vertices.card + 1) (deepcopy g) vertices []

/-- The loop of `ADMG.reachable_closure` (admg.py lines 163-176): same
pass structure as `fixableLoop`, but a failed pass simply stops instead of
reporting failure. -/
def rcLoop : ℕ → PyGraph → Finset ℕ → List ℕ → Except PyErr (PyGraph × List ℕ)
  | 0, _, _, _ => Except.error PyErr.diverge
  | fuel + 1, G, remaining, order =>
      if remaining = ∅ then Except.ok (G, order)
      else
        match findFixable G (enumAsc remaining) with
        | Except.error e => Except.error e
        | Except.ok none => Except.ok (G, order)
        | Except.ok (some v) =>
            match admgFix G [v] with
            | Except.error e => Except.error e
            | Except.ok G' => rcLoop fuel G' (remaining.erase v) (order ++ [v])

/-- Embeds `ADMG.reachable_closure` (admg.py lines 146-182): the candidates are
the non-fixed vertices outside the target set; the closure is whatever is
still non-fixed in the working copy at the end. -/
def reachableClosure (g : PyGraph) (vertices : Finset ℕ) :
    Except PyErr (Finset ℕ × List ℕ × PyGraph) :=
  let remaining := (g.verts \ vertices) \ g.fixeds
  match rcLoop (remaining.card + 1) (deepcopy g) remaining [] with
  | Except.error e => Except.error e
  | Except.ok (G, order) => Except.ok (G.verts \ G.fixeds, order, G)

/-- Embeds `SG._segregated` (sg.py lines 85-96): no vertex with both a sibling
and a neighbor. -/
def segregatedB (g : PyGraph) : Bool :=
  (enumAsc g.verts).all (fun v => decide (sibs g v = ∅) || decide (nebs g v = ∅))

/-- The `while` loop of `SG._dfs_cycle` (sg.py lines 63-83).  The stack is
kept top-first; `prev` is the previously popped vertex, `pd` the
`partially_directed` flag, `visited` the visited set.  Each executed
iteration strictly grows `visited` (the loop guard requires a stack
element outside it), so fuel `|verts|+1` is enough for every run. -/
def dfsCycleLoop (g : PyGraph) (start : ℕ) :
    ℕ → List ℕ → Option ℕ → Bool → Finset ℕ → Bool
  | 0, _, _, _, _ => false
  | fuel + 1, stk, prev, pd, visited =>
      if stk.all (fun s => decide (s ∈ visited)) then false
      else
        match stk with
        | [] => false
        | v :: rest =>
            let visited' := visited ∪ stk.toFinset
            let pd' := pd || decide (childs g v ≠ ∅)
            let ext := enumAsc ((childs g v ∪ nebs g v).filter (fun s => ¬ some s = prev))
            let stk' := ext ++ rest
            if start ∈ stk' ∧ pd' = true then true
            else dfsCycleLoop g start fuel stk' (some v) pd' visited'

/-- Embeds `SG._acyclic` (sg.py lines 41-53): run `_dfs_cycle` from every vertex.
Note the source's `- {prev_vertex}` exclusion in `_dfs_cycle` line 76: it
prevents the DFS from stepping straight back to the vertex just popped,
so a two-vertex directed cycle is never re-entered and is not detected. -/
def acyclicB (g : PyGraph) : Bool :=
  !(enumAsc g.verts).any
    (fun v => dfsCycleLoop g v (g.verts.card + 1) [v] none false ∅)

/-- Embeds `SG.__init__` (sg.py lines 11-38) on top of `Graph.__init__`
(graph.py lines 13-44): build the vertex dictionary (every edge endpoint
must be a known vertex or `add_*edge` raises KeyError), check the
segregation assert, then the acyclicity assert, then compute districts
and blocks (all `fixed` flags are False at construction time). -/
def sgNew (verts : Finset ℕ) (di bi ud : Finset (ℕ × ℕ)) : Except PyErr PyGraph :=
  if decide (∀ e ∈ di ∪ bi ∪ ud, e.1 ∈ verts ∧ e.2 ∈ verts) then
    let g0 : PyGraph := ⟨verts, ∅, di, bi, ud, [], true, []⟩
    if segregatedB g0 then
      if acyclicB g0 then
        Except.ok { g0 with mapD := calcDistricts verts ∅ bi,
                            mapB := calcBlocks verts ∅ ud }
      else Except.error PyErr.assertionError
    else Except.error PyErr.assertionError
  else Except.error PyErr.keyError

/-- Embeds `ADMG.__init__` (admg.py lines 20-31): an SG without undirected
edges. -/
def admgNew (verts : Finset ℕ) (di bi : Finset (ℕ × ℕ)) : Except PyErr PyGraph :=
  sgNew verts di bi ∅

/-- Embeds `ADMG.subgraph` (admg.py lines 225-244): keep only edges with
both endpoints retained, rebuild through the ADMG constructor (which
creates fresh non-fixed `Vertex` objects and computes the caches with no
vertex fixed), then copy the `fixed` flags from the original — without
recomputing the caches, so the district cache of the returned subgraph is
the one computed before any flag was set. -/
def admgSubgraph (g : PyGraph) (s : Finset ℕ) : Except PyErr PyGraph :=
  let di' := g.di.filter (fun e => e.1 ∈ s ∧ e.2 ∈ s)
  let bi' := g.bi.filter (fun e => e.1 ∈ s ∧ e.2 ∈ s)
  match admgNew s di' bi' with
  | Except.error e => Except.error e
  | Except.ok sub =>
      if decide (∀ v ∈ s, v ∈ g.verts) then
        Except.ok { sub with fixeds := s.filter (fun v => v ∈ g.fixeds) }
      else Except.error PyErr.keyError

/-- State of a Python `OneLineID` object (one_line.py lines 16-35) after
`__init__` ran successfully: the original graph, the query lists, the
deep-copied `swig` with the treatments fixed, `ystar` (the non-fixed
ancestors of the outcomes in the swig) and `Gystar` (the induced subgraph
of the original graph on `ystar`).  `fixing_orders` starts out as the
empty dictionary and is never successfully refilled (see `oneLineId`), so
it is not carried. -/
structure OneLineIDq where
  graph : PyGraph
  treatments : List ℕ
  outcomes : List ℕ
  swig : PyGraph
  ystar : Finset ℕ
  gystar : PyGraph
deriving DecidableEq

/-- Embeds `OneLineID.__init__` (one_line.py lines 18-35): deep copy,
`swig.fix(treatments)`, `ystar`, and `Gystar = graph.subgraph(ystar)`. -/
def mkOneLineID (g : PyGraph) (treatments outcomes : List ℕ) :
    Except PyErr OneLineIDq :=
  match admgFix (deepcopy g) treatments with
  | Except.error e => Except.error e
  | Except.ok swig =>
      match ancestorsF swig outcomes with
      | Except.error e => Except.error e
      | Except.ok anc =>
          let ystar := anc.filter (fun v => v ∉ swig.fixeds)
          match admgSubgraph g ystar with
          | Except.error e => Except.error e
          | Except.ok gystar => Except.ok ⟨g, treatments, outcomes, swig, ystar, gystar⟩

/-- Embeds `OneLineID.id` (one_line.py lines 66-87).  The method resets
`self.fixing_orders` and then opens the loop
`for district in self.Gystar.districts:` — but in this source tree
`districts` is an ordinary method (sg.py line 157 has `def districts(self):`
with no property decorator, and admg.py does not override it), so the
loop header iterates over the bound-method object itself and Python
raises `TypeError: 'method' object is not iterable` before any district
is examined, for every query. -/
def oneLineId (_q : OneLineIDq) : Except PyErr Bool :=
  Except.error PyErr.typeError

/-- Embeds the string assembly of `OneLineID.functional` (one_line.py
lines 100-111), reachable only after `self.id()` returns True — which
never happens (see `oneLineId`), so this is dead code in every run.  The
vertex names are rendered through their numeric stand-ins and the sum and
fixing operators by the ASCII markers `Sum` and `Phi`; `fixing_orders`
would contain one order per district of `Gystar`. -/
def renderFunctional (q : OneLineIDq) (fixingOrders : List (List ℕ × List ℕ)) : String :=
  let s0 := if q.ystar = q.outcomes.toFinset then "" else "Sum "
  let s1 := String.join ((enumAsc (q.ystar.filter (fun y => y ∉ q.outcomes))).map
    (fun y => toString y))
  let s2 := if 1 < q.ystar.card then " " else ""
  let s3 := String.join (fixingOrders.map
    (fun p => "Phi" ++ String.join (p.2.reverse.map (fun y => toString y)) ++ "(p(V);G) "))
  s0 ++ s1 ++ s2 ++ s3

/-- Embeds `OneLineID.functional` (one_line.py lines 90-111): re-run
`self.id()`; raise `NotIdentifiedError` when it returns False, otherwise
build the functional string.  Any exception `id` raises propagates. -/
def oneLineFunctional (q : OneLineIDq) : Except PyErr String :=
  match oneLineId q with
  | Except.error e => Except.error e
  | Except.ok b =>
      if b then Except.ok (renderFunctional q []) else Except.error PyErr.notIdentified

/-- Dictionary assignment `m[k] = x` for the IG's per-intrinsic-set maps
(`iset_cadmg_map`, `iset_fixing_order_map`): replace the value of an
existing key, else append in insertion order. -/
def setAssoc {β : Type} (m : List (Finset ℕ × β)) (k : Finset ℕ) (x : β) :
    List (Finset ℕ × β) :=
  if m.any (fun p => decide (p.1 = k)) then
    m.map (fun p => if p.1 = k then (k, x) else p)
  else m ++ [(k, x)]

/-- Set-insertion into an IG edge list (`Graph.add_diedge`/`add_biedge`
on the IG, whose edges the embedding keeps as duplicate-free lists). -/
def addEdgeL (es : List (Finset ℕ × Finset ℕ)) (e : Finset ℕ × Finset ℕ) :
    List (Finset ℕ × Finset ℕ) :=
  if e ∈ es then es else es ++ [e]

/-- Embeds `Graph.delete_biedge` (graph.py lines 95-110) as used by
`IG.merge`: remove the pair in its stored orientation, falling back to
the reversed orientation, raising KeyError when neither is present. -/
def deleteBiedgeL (es : List (Finset ℕ × Finset ℕ)) (s1 s2 : Finset ℕ) :
    Except PyErr (List (Finset ℕ × Finset ℕ)) :=
  if (s1, s2) ∈ es then Except.ok (es.erase (s1, s2))
  else if (s2, s1) ∈ es then Except.ok (es.erase (s2, s1))
  else Except.error PyErr.keyError

/-- Embeds `IG.bidirected_connected` (ig.py lines 50-63): some member of
`s1` has a bidirected edge to some member of `s2` in the original ADMG. -/
def bidirConnected (admg : PyGraph) (s1 s2 : Finset ℕ) : Bool :=
  (enumAsc s1).any (fun a => (enumAsc s2).any (fun b => hasBiedgeB admg a b))

/-- Embeds `Graph.ancestors` as inherited by the IG (vertices are
frozensets): the same always-re-pushing worklist as `ancestorsF`, over
the IG's directed (subset) edges.  Every call site passes vertices
present in the IG, so no KeyError arises. -/
def igAncestors (di : List (Finset ℕ × Finset ℕ)) (nv : ℕ) (vs : List (Finset ℕ)) :
    Except PyErr (Finset (Finset ℕ)) :=
  genLoop (fun t => (di.filter (fun e => e.2 = t)).map (fun e => e.1))
    ((nv + 2) ^ (nv + 2)) vs ∅

/-- State of a Python `IG` object (ig.py lines 14-48): the stored ADMG
copy, the vertex dictionary keys in insertion order, the directed
(subset) and bidirected edge sets as duplicate-free lists, and the two
per-intrinsic-set maps.  When `add_vertex` is called with an existing
frozenset the dict key list is unchanged; the source then also replaces
that key's `Vertex` object, clobbering its relational indices — a corner
not modelled here because no theorem below reaches it (every evaluated
run either errors earlier or inserts distinct sets). -/
structure IGState where
  admg : PyGraph
  verts : List (Finset ℕ)
  di : List (Finset ℕ × Finset ℕ)
  bi : List (Finset ℕ × Finset ℕ)
  cadmgMap : List (Finset ℕ × PyGraph)
  fixOrders : List (Finset ℕ × List ℕ)
deriving DecidableEq

/-- Embeds the inner edge-wiring loop of `IG.__init__` (ig.py lines
40-48), threading the edge lists vertex by vertex exactly as the source
mutates them: for each existing vertex `i`, add the subset directed edge
(strict inclusion, `elif` exclusive), then add a bidirected edge when
neither side is an IG-ancestor of the other (checked against the edges
present at that moment, short-circuiting like the source `or`) and the
two sets are bidirected-connected in the ADMG. -/
def igWireLoop (admg : PyGraph) (rc : Finset ℕ) (nv : ℕ) :
    List (Finset ℕ) → List (Finset ℕ × Finset ℕ) → List (Finset ℕ × Finset ℕ) →
    Except PyErr (List (Finset ℕ × Finset ℕ) × List (Finset ℕ × Finset ℕ))
  | [], di, bi => Except.ok (di, bi)
  | i :: rest, di, bi =>
      let di' := if i ⊂ rc then addEdgeL di (i, rc)
        else if rc ⊂ i then addEdgeL di (rc, i) else di
      match igAncestors di' nv [rc] with
      | Except.error e => Except.error e
      | Except.ok ancRc =>
          if i ∈ ancRc then igWireLoop admg rc nv rest di' bi
          else
            match igAncestors di' nv [i] with
            | Except.error e => Except.error e
            | Except.ok ancI =>
                if rc ∈ ancI then igWireLoop admg rc nv rest di' bi
                else if bidirConnected admg i rc then
                  igWireLoop admg rc nv rest di' (addEdgeL bi (i, rc))
                else igWireLoop admg rc nv rest di' bi

/-- Embeds the vertex loop of `IG.__init__` (ig.py lines 31-48): for
every non-fixed ADMG vertex, compute the reachable closure of its
singleton (exceptions propagate), insert it as an IG vertex, record its
CADMG and fixing order, and wire its edges. -/
def igInitLoop (admg : PyGraph) : List ℕ → IGState → Except PyErr IGState
  | [], ig => Except.ok ig
  | v :: rest, ig =>
      if v ∈ admg.fixeds then igInitLoop admg rest ig
      else
        match reachableClosure admg {v} with
        | Except.error e => Except.error e
        | Except.ok (rc, ford, cG) =>
            let verts' := if rc ∈ ig.verts then ig.verts else ig.verts ++ [rc]
            match igWireLoop admg rc verts'.length verts' ig.di ig.bi with
            | Except.error e => Except.error e
            | Except.ok (di', bi') =>
                igInitLoop admg rest
                  { ig with
                    verts := verts'
                    di := di'
                    bi := bi'
                    cadmgMap := setAssoc ig.cadmgMap rc cG
                    fixOrders := setAssoc ig.fixOrders rc ford }

/-- Embeds `IG.__init__` (ig.py lines 16-48) for a given ADMG copy. -/
def igInit (admg : PyGraph) : Except PyErr IGState :=
  igInitLoop admg (enumAsc admg.verts) ⟨admg, [], [], [], [], []⟩

/-- Embeds `IG.merge` (ig.py lines 94-121): reachable closure of the
union against the original ADMG, delete the merged bidirected edge, and
— when the closure is a new vertex — insert it, wire the subset edges
(`maintain_subset_relation`, ig.py lines 65-77), and add bidirected
edges to every non-ancestor bidirected-connected vertex
(`add_new_biedges`, ig.py lines 79-92, whose ancestor set is computed
once, after the subset edges are in place). -/
def igMerge (ig : IGState) (s1 s2 : Finset ℕ) : Except PyErr IGState :=
  match reachableClosure ig.admg (s1 ∪ s2) with
  | Except.error e => Except.error e
  | Except.ok (s3, ford, cG) =>
      match deleteBiedgeL ig.bi s1 s2 with
      | Except.error e => Except.error e
      | Except.ok bi1 =>
          let ig1 := { ig with bi := bi1 }
          if s3 ∈ ig1.verts then Except.ok ig1
          else
            let verts' := ig1.verts ++ [s3]
            let di' := verts'.foldl
              (fun di i => if i ⊂ s3 then addEdgeL di (i, s3)
                else if s3 ⊂ i then addEdgeL di (s3, i) else di) ig1.di
            match igAncestors di' verts'.length [s3] with
            | Except.error e => Except.error e
            | Except.ok anc =>
                let bi' := verts'.foldl
                  (fun bi i =>
                    if i ∉ anc ∧ bidirConnected ig1.admg i s3 then addEdgeL bi (i, s3)
                    else bi) ig1.bi
                Except.ok
                  { ig1 with
                    verts := verts'
                    di := di'
                    bi := bi'
                    cadmgMap := setAssoc ig1.cadmgMap s3 cG
                    fixOrders := setAssoc ig1.fixOrders s3 ford }

/-- Embeds the loop of `IG.get_intrinsic_sets` (ig.py lines 123-139):
pop a remaining bidirected edge (`next(iter(...))` — an unspecified
choice, embedded as the head of the edge list) and merge its endpoints
until none remain.  Each merge removes an edge or inserts a new subset
of the vertex set, so runs are finite; the fuel dominates them. -/
def igMergeLoop : ℕ → IGState → Except PyErr IGState
  | 0, _ => Except.error PyErr.diverge
  | fuel + 1, ig =>
      match ig.bi with
      | [] => Except.ok ig
      | (u, v) :: _ =>
          match igMerge ig u v with
          | Except.error e => Except.error e
          | Except.ok ig' => igMergeLoop fuel ig'

/-- Embeds `ADMG.get_intrinsic_sets` (admg.py lines 246-258): build an IG
from a deep copy of self, run the merge loop, and return the intrinsic
sets (the IG's vertex-dict keys, in insertion order) with the fixing
order map. -/
def admgGetIntrinsicSets (g : PyGraph) :
    Except PyErr (List (Finset ℕ) × List (Finset ℕ × List ℕ)) :=
  match igInit (deepcopy g) with
  | Except.error e => Except.error e
  | Except.ok ig =>
      match igMergeLoop (2 ^ (2 * g.verts.card + 4)) ig with
      | Except.error e => Except.error e
      | Except.ok ig' => Except.ok (ig'.verts, ig'.fixOrders)

/-- Method view of `ADMG.fixable`: the call's result paired with the
state of `self` afterwards.  The body (admg.py lines 184-223) reads
`self` only to build `G = copy.deepcopy(self)`; every mutation in the
loop targets `G`, so `self` is returned unchanged. -/
def fixableMeth (g : PyGraph) (vertices : Finset ℕ) :
    Except PyErr (Bool × List ℕ) × PyGraph :=
  (fixable g vertices, g)

/-- Method view of `ADMG.reachable_closure` (admg.py lines 146-182):
`self` is read (its vertex dict and fixed flags, and the deep copy) and
never written, so it is returned unchanged. -/
def reachableClosureMeth (g : PyGraph) (vertices : Finset ℕ) :
    Except PyErr (Finset ℕ × List ℕ × PyGraph) × PyGraph :=
  (reachableClosure g vertices, g)

/-- Method view of `ADMG.get_intrinsic_sets` (admg.py lines 246-258):
the IG is built from `copy.deepcopy(self)` and every subsequent
mutation targets the IG or copies of the copy, so `self` is returned
unchanged. -/
def getIntrinsicSetsMeth (g : PyGraph) :
    Except PyErr (List (Finset ℕ) × List (Finset ℕ × List ℕ)) × PyGraph :=
  (admgGetIntrinsicSets g, g)

/-! ## Helper lemmas -/

theorem enumAsc_singleton (v : ℕ) : enumAsc {v} = [v] := by
  unfold enumAsc
  rw [Finset.sup_singleton]
  simp only [id_eq]
  rw [List.range_succ, List.filter_append]
  have h1 : (List.range v).filter (fun x => decide (x ∈ ({v} : Finset ℕ))) = [] := by
    rw [List.filter_eq_nil_iff]
    intro a ha
    simp only [List.mem_range] at ha
    simp only [Finset.mem_singleton, decide_eq_true_eq]
    omega
  rw [h1]
  simp [List.filter]

theorem districtF_ok_mem {g : PyGraph} {v : ℕ} {d : Finset ℕ}
    (h : districtF g v = Except.ok d) : v ∈ g.verts := by
  by_contra hv
  simp [districtF, hv] at h

/-- Concrete well-formed one-vertex ADMG state used by witnesses. -/
def gW5 : PyGraph := ⟨{0}, ∅, ∅, ∅, ∅, [{0}], true, [{0}]⟩

/-- Concrete two-vertex graph with one bidirected edge, used by the C10
witness. -/
def gW10 : PyGraph := ⟨{0, 1}, ∅, ∅, {(0, 1)}, ∅, [{0, 1}], true, [{0}, {1}]⟩

/-! ## Claim theorems -/

/-- Claim C1 (refuted by the code; the repo's own test
`test_fixing` in tests/graphs/test_admg.py asserts the opposite of what
the code does).  The claim says `fix(S)` deletes every bidirected edge
touching a fixed vertex and leaves the cached districts equal to the
recomputed partition.  First conjunct: on the ADMG `A→B→C, B↔C`
(`0→1→2, 1↔2`), after `fix(["C"])` the vertex `C` is fixed and its
incoming directed edge is gone, but the bidirected edge `B↔C` is still
present (`SG.delete_biedge` calls `Graph.add_biedge`) and the district
cache is `None` (`validD = false`), not the recomputed partition.
Second conjunct: on the SG `A - B` (one undirected edge), `fix(["A"])`
raises AttributeError (`SG.fix` tests `n.fixed` on a name string)
instead of performing the undirected-edge bookkeeping. -/
theorem claim_C1_fix_keeps_biedges_and_drops_cache :
    (((sgNew {0, 1, 2} {(0, 1), (1, 2)} {(1, 2)} ∅).bind (fun g => admgFix g [2])).map
        (fun g' => (decide ((1, 2) ∈ g'.bi), g'.validD, decide (2 ∈ g'.fixeds),
          decide ((1, 2) ∈ g'.di))) =
      Except.ok (true, false, true, false)) ∧
    ((sgNew {0, 1} ∅ ∅ {(0, 1)}).bind (fun g => sgFix g [0]) =
      Except.error PyErr.attributeError) := by
  decide

/-- Claim C2 (refuted by the code).  The claim says `fixable(S)` always
terminates normally with a pair and never raises.  On the two-vertex
edgeless ADMG, `fixable({A, B})` fixes one vertex — after which
`ADMG.fix` has left `_districts = None` — and the next pass's
`G.district(v)` subscripts `None`, raising TypeError.  The input is
symmetric, so every set-iteration order gives the same exception. -/
theorem claim_C2_fixable_raises_typeerror :
    (sgNew {0, 1} ∅ ∅ ∅).bind (fun g => fixable g {0, 1}) =
      Except.error PyErr.typeError := by
  decide

/-- Claim C3 (confirmed).  `fixable`, `reachable_closure` and
`get_intrinsic_sets` never mutate the caller's graph: each works on
`copy.deepcopy(self)` (admg.py lines 195, 160, 254) and every mutation
in their bodies targets the copy or the derived IG, so the method view
of each call returns `self` unchanged — vertex map, edge sets, fixed
flags and district caches included. -/
theorem claim_C3_no_mutation_of_caller (g : PyGraph) (s : Finset ℕ) :
    (fixableMeth g s).2 = g ∧ (reachableClosureMeth g s).2 = g ∧
      (getIntrinsicSetsMeth g).2 = g :=
  ⟨rfl, rfl, rfl⟩

/-- Claim C4 (refuted by the code).  The claim says SG construction
fails on every directed or partially-directed cycle, in particular on
the two-vertex cycle `A→B, B→A`.  First conjunct: that very input
constructs successfully — `SG._dfs_cycle` excludes the previously
popped vertex from the extension (`- {prev_vertex}`, sg.py line 76), so
a 2-cycle is never re-entered and `_acyclic` returns True.  Second
conjunct: a directed 3-cycle is still rejected with the construction
AssertionError, so the slip is specific to 2-cycles. -/
theorem claim_C4_two_cycle_accepted :
    ((sgNew {0, 1} {(0, 1), (1, 0)} ∅ ∅).map (fun _ => ()) = Except.ok ()) ∧
      (sgNew {0, 1, 2} {(0, 1), (1, 2), (2, 0)} ∅ ∅ =
        Except.error PyErr.assertionError) := by
  decide

/-- Claim C5 (confirmed).  For any graph state and non-fixed vertex `v`
whose descendant set intersected with its district is exactly `{v}`,
`fixable({v})` returns `(True, [v])`: the single pass finds `v`
immediately, fixes it on the copy, and the remainder is empty before any
further district query could touch the invalidated cache. -/
theorem claim_C5_singleton_fixable (g : PyGraph) (v : ℕ) (d dist : Finset ℕ)
    (_hnf : v ∉ g.fixeds)
    (hd : descendantsF g [v] = Except.ok d)
    (hdist : districtF g v = Except.ok dist)
    (hint : d ∩ dist = {v}) :
    fixable g {v} = Except.ok (true, [v]) := by
  have hv : v ∈ g.verts := districtF_ok_mem hdist
  simp only [fixable, deepcopy, Finset.card_singleton]
  simp only [fixableLoop, Finset.singleton_ne_empty, if_false, enumAsc_singleton,
    findFixable, hd, hdist, hint, Finset.card_singleton, if_true,
    admgFix, admgFixList, admgFixOne, hv, if_pos, Finset.erase_singleton,
    List.nil_append]

theorem claim_C5_singleton_fixable_witness :
    fixable gW5 {0} = Except.ok (true, [0]) :=
  claim_C5_singleton_fixable gW5 0 {0} {0} (by decide) (by decide) (by decide) (by decide)

/-- Claim C6 (refuted by the code).  The claim says `reachable_closure(S)`
returns a closure containing `S` and is idempotent.  On the three-vertex
edgeless ADMG, `reachable_closure({A})` fixes one of the two candidate
vertices on the copy — invalidating `_districts` — and the next pass's
district query raises TypeError, so no closure is returned at all.  The
candidates are symmetric, so every set-iteration order raises. -/
theorem claim_C6_reachable_closure_raises :
    (sgNew {0, 1, 2} ∅ ∅ ∅).bind (fun g => reachableClosure g {0}) =
      Except.error PyErr.typeError := by
  decide

/-- Claim C7 (refuted by the code).  The claim says `functional()` raises
`NotIdentifiedError` whenever `id()` is False and only returns a string
when `id()` is True.  In this source tree `id()` never returns at all:
it raises TypeError on the loop header `for district in
self.Gystar.districts:` (a bound method, not a property), and
`functional()` propagates that TypeError instead of ever reaching the
`NotIdentifiedError` branch — shown here on the non-identified bow-arc
query. -/
theorem claim_C7_functional_raises_typeerror :
    (sgNew {0, 1} {(0, 1)} {(0, 1)} ∅).bind
        (fun g => (mkOneLineID g [0] [1]).bind oneLineFunctional) =
      Except.error PyErr.typeError := by
  decide

/-- Claim C8 (refuted by the code).  The claim says the bow-arc query
`OneLineID(G, ['T'], ['Y']).id()` returns False.  Construction of the
query object succeeds (the swig fix, `ystar = {Y}` and `Gystar` all
evaluate), but `id()` raises TypeError at `for district in
self.Gystar.districts:` because `districts` is a method in this tree,
so it never returns False. -/
theorem claim_C8_bowarc_id_raises :
    (sgNew {0, 1} {(0, 1)} {(0, 1)} ∅).bind
        (fun g => (mkOneLineID g [0] [1]).bind oneLineId) =
      Except.error PyErr.typeError := by
  decide

/-- Claim C9 (refuted by the code).  The claim says that on the fully
bidirected-connected three-vertex ADMG, `get_intrinsic_sets()` returns
the seven non-empty subsets.  Instead the very first singleton
reachable-closure computed by `IG.__init__` fixes one vertex — leaving
`_districts = None` on the working copy — and the next pass's district
query raises TypeError, which propagates out of
`get_intrinsic_sets()`.  All choices are symmetric, so every
set-iteration order raises. -/
theorem claim_C9_intrinsic_sets_raise :
    (sgNew {0, 1, 2} ∅ {(0, 1), (1, 2), (0, 2)} ∅).bind admgGetIntrinsicSets =
      Except.error PyErr.typeError := by
  decide

/-- Claim C10 (confirmed).  `has_biedge(a, b)` tests membership of both
orientations of the pair in `bi_edges`, so it is symmetric in its
arguments for every graph state and pair of vertices. -/
theorem claim_C10_has_biedge_symm (g : PyGraph) (a b : ℕ)
    (_ha : a ∈ g.verts) (_hb : b ∈ g.verts) :
    hasBiedgeB g a b = hasBiedgeB g b a := by
  simp only [hasBiedgeB]
  exact Bool.or_comm _ _

theorem claim_C10_has_biedge_symm_witness :
    hasBiedgeB gW10 0 1 = hasBiedgeB gW10 1 0 :=
  claim_C10_has_biedge_symm gW10 0 1 (by decide) (by decide)
